import Mathlib

/-!
Verification of the desklines appointment server (`src/server.js`, canonical
variant: the Google-Calendar-backed handler).  The JavaScript source is
shallowly embedded: strings are Lean `String`s manipulated through their
character lists, the regex tests of the source are hand-compiled character
matchers, timezone-anchored instants are minute counts obtained from a civil
calendar computation (the business timezone is a single fixed zone, so a
constant offset drops out of every comparison the code makes), and the two
outbound Google Calendar calls are parameters (`FBOutcome`, `InsOutcome`)
together with a trace of issued calls.

The dump of `src/server.js` doubles backslashes inside regex literals
(`/^\\d{4}-\\d{2}-\\d{2}$/`); the sibling historical variants in
`src/unnamed` carry the same regexes with single backslashes (`/^\d{4}-...$/`),
so the doubled form is a transcription artifact and `\\d` is embedded as the
digit class.
-/

namespace Desklines

/-- Characters counted by the JS `trim` / `\s` class as used here. -/
def isWs (c : Char) : Bool := c = ' ' || c = '\t' || c = '\n' || c = '\r'

/-- Trim whitespace from both ends of a character list (JS `String.trim`). -/
def trimChars (l : List Char) : List Char :=
  ((l.dropWhile isWs).reverse.dropWhile isWs).reverse

/-- JS `String(raw).trim()` on an optional string (`null` stringifies first,
but the source guards `raw == null` before calling `trim`). -/
def trimS (s : String) : String := String.mk (trimChars s.data)

/-- Numeric value of a digit list, `parseInt` on an all-digit string. -/
def digitsToNat (l : List Char) : Nat :=
  l.foldl (fun a c => a * 10 + (c.toNat - 48)) 0

/-- `/^\d{4}-\d{2}-\d{2}$/` from `normalizeDate` (src/server.js line 36). -/
def isIsoShape (l : List Char) : Bool :=
  match l with
  | [a, b, c, d, h1, e, f, h2, g, i] =>
      a.isDigit && b.isDigit && c.isDigit && d.isDigit && h1 = '-' &&
      e.isDigit && f.isDigit && h2 = '-' && g.isDigit && i.isDigit
  | _ => false

/-- `/^\d{2}:\d{2}$/` from `parseLocalTimeToHHmm` (src/server.js line 61). -/
def isHHmmShape (l : List Char) : Bool :=
  match l with
  | [a, b, c, d, e] => a.isDigit && b.isDigit && c = ':' && d.isDigit && e.isDigit
  | _ => false

/-- The trailing `\s*([ap]m)$` of the am/pm regex: optional whitespace, then
exactly `am` or `pm` case-insensitively, at end of input.  Returns `true` for
pm, `false` for am. -/
def meridiemTail (l : List Char) : Option Bool :=
  match l.dropWhile isWs with
  | [c1, c2] =>
      if (c2 = 'm' || c2 = 'M') then
        if c1 = 'a' || c1 = 'A' then some false
        else if c1 = 'p' || c1 = 'P' then some true
        else none
      else none
  | _ => none

/-- `/^(\d{1,2})(?::(\d{2}))?\s*([ap]m)$/i` (src/server.js line 63):
hour digits (one or two), optional `:mm`, optional whitespace, meridiem.
Result: (hour, minute, isPm). -/
def matchAmPm (l : List Char) : Option (Nat × Nat × Bool) :=
  let ds := l.takeWhile Char.isDigit
  let rest := l.dropWhile Char.isDigit
  if ds.length = 1 || ds.length = 2 then
    match rest with
    | ':' :: m1 :: m2 :: rest2 =>
        if m1.isDigit && m2.isDigit then
          match meridiemTail rest2 with
          | some pm => some (digitsToNat ds, digitsToNat [m1, m2], pm)
          | none => none
        else none
    | _ =>
        match meridiemTail rest with
        | some pm => some (digitsToNat ds, 0, pm)
        | none => none
  else none

/-- `/^(\d{1,2})$/` (src/server.js line 73): a bare one- or two-digit number. -/
def matchHourOnly (l : List Char) : Option Nat :=
  if (l.length = 1 || l.length = 2) && l.all Char.isDigit then
    some (digitsToNat l)
  else none

/-- Two-digit zero-padded decimal (JS `String(n).padStart(2, "0")`). -/
def pad2 (n : Nat) : String :=
  if n < 10 then "0" ++ Nat.repr n else Nat.repr n

/-- Four-digit zero-padded year for `YYYY-MM-DD` formatting. -/
def pad4 (n : Nat) : String :=
  if n < 10 then "000" ++ Nat.repr n
  else if n < 100 then "00" ++ Nat.repr n
  else if n < 1000 then "0" ++ Nat.repr n
  else Nat.repr n

/-- A wall-clock datetime in the single business timezone: the carrier for
moment objects already projected into `TZ`. -/
structure LocalDT where
  year : Nat
  month : Nat
  day : Nat
  hour : Nat
  minute : Nat
deriving DecidableEq, Repr

/-- `callMoment.format("YYYY-MM-DD")`. -/
def fmtDate (w : LocalDT) : String :=
  pad4 w.year ++ "-" ++ pad2 w.month ++ "-" ++ pad2 w.day

/-- `m.format("HH:mm")`. -/
def fmtTime (w : LocalDT) : String :=
  pad2 w.hour ++ ":" ++ pad2 w.minute

/-- `m.format("h:mm a")`: 12-hour clock, unpadded hour, lowercase meridiem. -/
def fmt12 (w : LocalDT) : String :=
  let r := w.hour % 12
  let h12 := if r = 0 then 12 else r
  Nat.repr h12 ++ ":" ++ pad2 w.minute ++ " " ++ (if w.hour < 12 then "am" else "pm")

/-- Gregorian leap-year test. -/
def isLeap (y : Nat) : Bool := y % 4 = 0 && (y % 100 ≠ 0 || y % 400 = 0)

/-- Days in a month of a given year. -/
def daysInMonth (y m : Nat) : Nat :=
  if m = 2 then (if isLeap y then 29 else 28)
  else if m = 4 || m = 6 || m = 9 || m = 11 then 30
  else 31

/-- Days of the year strictly before month `m` (1-based). -/
def daysBeforeMonth (y m : Nat) : Nat :=
  let base :=
    if m ≤ 1 then 0 else if m = 2 then 31 else if m = 3 then 59
    else if m = 4 then 90 else if m = 5 then 120 else if m = 6 then 151
    else if m = 7 then 181 else if m = 8 then 212 else if m = 9 then 243
    else if m = 10 then 273 else if m = 11 then 304 else 334
  if 3 ≤ m && isLeap y then base + 1 else base

/-- Day count of a civil date from a fixed origin (proleptic Gregorian). -/
def civilDays (y m d : Nat) : Nat :=
  365 * (y - 1) + (y - 1) / 4 - (y - 1) / 100 + (y - 1) / 400 +
    daysBeforeMonth y m + (d - 1)

/-- A wall-clock datetime as a minute count.  Within the single business
timezone every instant comparison and minute-difference the code performs is
preserved by this measure. -/
def dtMinutes (w : LocalDT) : Int :=
  ((civilDays w.year w.month w.day * 1440 + w.hour * 60 + w.minute : Nat) : Int)

/-- Range-validity of the datetime fields, the check `moment.tz(s, fmt, TZ)`
performs when deciding `isValid()`. -/
def validDT (w : LocalDT) : Bool :=
  1 ≤ w.month && w.month ≤ 12 && 1 ≤ w.day && w.day ≤ daysInMonth w.year w.month &&
    w.hour ≤ 23 && w.minute ≤ 59

/-- `moment.tz(dateStr ++ " " ++ timeStr, "YYYY-MM-DD HH:mm", TZ)`
(src/server.js line 194): read the fixed-position fields and validate ranges;
an out-of-range or malformed combination is an invalid moment (`none`). -/
def combine (dateStr timeStr : String) : Option LocalDT :=
  match dateStr.data, timeStr.data with
  | [y1, y2, y3, y4, s1, m1, m2, s2, d1, d2], [h1, h2, s3, n1, n2] =>
      if y1.isDigit && y2.isDigit && y3.isDigit && y4.isDigit && s1 = '-' &&
         m1.isDigit && m2.isDigit && s2 = '-' && d1.isDigit && d2.isDigit &&
         h1.isDigit && h2.isDigit && s3 = ':' && n1.isDigit && n2.isDigit then
        let w : LocalDT :=
          ⟨digitsToNat [y1, y2, y3, y4], digitsToNat [m1, m2], digitsToNat [d1, d2],
           digitsToNat [h1, h2], digitsToNat [n1, n2]⟩
        if validDT w then some w else none
      else none
  | _, _ => none

/-- Result of `normalizeDate` (src/server.js lines 32-54): the normalized
`YYYY-MM-DD` value, a flag recording whether parsing succeeded, and the
original (trimmed) phrase. -/
structure DateRes where
  value : String
  normalized : Bool
  original : String
deriving DecidableEq, Repr

/-- `normalizeDate(raw, callMoment)` (src/server.js lines 32-54).  `chrono`
abstracts the external library composite
`moment(chrono.parseDate(s, callMoment.toDate(), {forwardDate:true})).tz(TZ).format("YYYY-MM-DD")`,
returning `none` when `chrono.parseDate` yields `null` or throws.  On total
failure the source keeps the flow alive with the call moment's own date and
`normalized = false`. -/
def normalizeDate (raw : Option String) (callMoment : LocalDT)
    (chrono : String → Option String) : DateRes :=
  let original := trimS (raw.getD "")
  if isIsoShape original.data then ⟨original, true, original⟩
  else if original ≠ "" then
    match chrono original with
    | some d => ⟨d, true, original⟩
    | none => ⟨fmtDate callMoment, false, original⟩
  else ⟨fmtDate callMoment, false, original⟩

/-- `parseLocalTimeToHHmm(raw, fallbackMoment)` (src/server.js lines 56-83):
verbatim `HH:mm`, else the am/pm pattern, else a bare hour clamped into
`0..23` (`Math.max(0, Math.min(23, hour))`), else the fallback moment's
current time of day.  The function always returns a time string; there is no
unresolved result. -/
def parseLocalTimeToHHmm (raw : Option String) (fallbackMoment : LocalDT) : String :=
  match raw with
  | none => fmtTime fallbackMoment
  | some r =>
      let s := trimChars r.data
      if s = [] then fmtTime fallbackMoment
      else if isHHmmShape s then String.mk s
      else
        match matchAmPm s with
        | some (h, mi, pm) =>
            let hour := if pm && h < 12 then h + 12 else if !pm && h = 12 then 0 else h
            pad2 hour ++ ":" ++ pad2 mi
        | none =>
            match matchHourOnly s with
            | some h => pad2 (max 0 (min 23 h)) ++ ":00"
            | none => fmtTime fallbackMoment

/-- A JSON value in the `durationMinutes` position: a number or a string. -/
inductive JsVal where
  | num (n : Int)
  | str (s : String)
deriving DecidableEq, Repr

/-- Duration resolution (src/server.js lines 185-192): default 30; a numeric
body value is taken unchanged (zero and negative included); a string is
stripped to its digits and `parseInt`ed, keeping 30 when no digits remain. -/
def resolveDuration (rawDuration : Option JsVal) : Int :=
  match rawDuration with
  | none => 30
  | some (JsVal.num n) => n
  | some (JsVal.str s) =>
      let ds := s.data.filter Char.isDigit
      if ds = [] then 30 else ((digitsToNat ds : Nat) : Int)

/-- The request-body fields the handler reads, after the alias coalescing of
src/server.js lines 169-177 (the aliases themselves are not under claim).
`autoBook` is carried to show the handler never reads it. -/
structure Body where
  date : Option String
  time : Option String
  duration : Option JsVal
  customerName : Option String
  customerEmail : Option String
  customerPhone : Option String
  autoBook : Option Bool
deriving DecidableEq, Repr

/-- `req.body || {}` when the body is absent. -/
def Body.empty : Body := ⟨none, none, none, none, none, none, none⟩

/-- Outcome of the `gcal.freebusy.query` step: the returned busy-interval
list, or a thrown error (credential failure or query fault). -/
inductive FBOutcome where
  | ok (busy : List (Int × Int))
  | fail (msg : String)
deriving DecidableEq, Repr

/-- Outcome of the `gcal.events.insert` step: the created event's id
(`ev.data.id`, possibly absent), or a thrown error. -/
inductive InsOutcome where
  | ok (id : Option String)
  | fail (msg : String)
deriving DecidableEq, Repr

/-- An outbound Google Calendar call, with instants as minute counts
(`none` encodes the `null` ISO string of an invalid moment). -/
inductive Call where
  | freebusy (timeMin timeMax : Option Int)
  | insert (summary description : String) (startMin endMin : Option Int)
      (attendees : List String)
deriving DecidableEq, Repr

/-- Whether a call is an event-creation call. -/
def Call.isInsert : Call → Bool
  | Call.insert _ _ _ _ _ => true
  | _ => false

/-- The `appointment` object of the success response (src/server.js lines
269-280), restricted to the fields under claim. -/
structure ApptInfo where
  date : String
  time24 : String
  startMin : Int
  durationMinutes : Int
  originalDatePhrase : String
  normalizedDate : Bool
deriving DecidableEq, Repr

/-- A JSON response body of the handler.  `none` in an `Option` field means
the field is absent or `null` in the emitted JSON. -/
structure Response where
  status : Nat
  isFree : Option Bool
  eventId : Option String
  message : String
  error : Option String
  createError : Option String
  appointment : Option ApptInfo
deriving DecidableEq, Repr

/-- `res.status(401).json({message: "Unauthorized"})` (line 158). -/
def unauthorizedResp : Response :=
  ⟨401, none, none, "Unauthorized", none, none, none⟩

/-- The handler-level catch response (src/server.js lines 284-289). -/
def catchResp (e : String) : Response :=
  ⟨200, some false, none, "Sorry, I hit an error. Try another time.", some e, none, none⟩

/-- The freebusy-failure response (src/server.js lines 221-226). -/
def fbFailedResp (e : String) : Response :=
  ⟨200, some false, none, "Google auth is not ready. Check env or refresh token.",
   some e, none, none⟩

/-- The slot-busy response (src/server.js lines 213-217). -/
def slotBusyResp (w : LocalDT) : Response :=
  ⟨200, some false, none,
   "Sorry, " ++ fmtDate w ++ " at " ++ fmt12 w ++ " is already booked.",
   none, none, none⟩

/-- The creation-failure response (src/server.js lines 251-256). -/
def createFailedResp (e : String) : Response :=
  ⟨200, some true, none, "Slot is free, but I couldn't create the event.",
   none, some e, none⟩

/-- `ev.data.id || null`: an absent or empty id becomes `null`. -/
def eventIdOf (id : Option String) : Option String :=
  match id with
  | some s => if s = "" then none else some s
  | none => none

/-- Integer rendering as by JS template interpolation. -/
def intStr (i : Int) : String :=
  if i < 0 then "-" ++ Nat.repr i.natAbs else Nat.repr i.natAbs

/-- The booked-success response (src/server.js lines 259-281). -/
def bookedResp (w : LocalDT) (dur : Int) (id : Option String)
    (dres : DateRes) : Response :=
  ⟨200, some true, eventIdOf id,
   "Booked " ++ fmtDate w ++ " at " ++ fmt12 w ++ " for " ++ intStr dur ++ " minutes.",
   none, none,
   some ⟨fmtDate w, fmtTime w, dtMinutes w, dur, dres.original, dres.normalized⟩⟩

/-- The pure parsing front of the handler (src/server.js lines 180-196):
date, time and duration resolution and the appointment window. -/
structure Pipe where
  dres : DateRes
  timeStr : String
  duration : Int
  window : Option LocalDT
  name : String
  email : String
  phone : String
deriving DecidableEq, Repr

/-- Assemble the parsing front from the body (src/server.js lines 169-196).
The contact fields default to `""` via the `?? ""` coalescing. -/
def mkPipe (b : Body) (callMoment : LocalDT) (chrono : String → Option String) : Pipe :=
  let dres := normalizeDate b.date callMoment chrono
  let timeStr := parseLocalTimeToHHmm b.time callMoment
  let duration := resolveDuration b.duration
  ⟨dres, timeStr, duration, combine dres.value timeStr,
   b.customerName.getD "", b.customerEmail.getD "", b.customerPhone.getD ""⟩

/-- `Appointment – ${String(customerName || "Customer")}` (line 232). -/
def summaryOf (name : String) : String :=
  "Appointment – " ++ (if name = "" then "Customer" else name)

/-- The event description template (line 233). -/
def descriptionOf (phone email : String) : String :=
  "Booked by AI receptionist.\nPhone: " ++ phone ++ "\nEmail: " ++ email

/-- `customerEmail ? [customerEmail] : []` (line 234). -/
def attendeesOf (email : String) : List String :=
  if email = "" then [] else [email]

/-- The orchestration after parsing (src/server.js lines 176-281): the
freebusy query, the early slot-busy return, and — because line 177 hardcodes
`autoBook = true` — an unconditional creation attempt on a free result.
An invalid appointment moment serializes to `null` bounds, which the query
rejects, landing in the freebusy catch. -/
def handlerCore (p : Pipe) (fb : FBOutcome) (ins : InsOutcome) : Response × List Call :=
  match p.window with
  | none =>
      (fbFailedResp "Bad Request", [Call.freebusy none none])
  | some w =>
      let s := dtMinutes w
      let e := s + p.duration
      let fbCall := Call.freebusy (some s) (some e)
      match fb with
      | FBOutcome.fail msg => (fbFailedResp msg, [])
      | FBOutcome.ok busy =>
          if busy.length = 0 then
            let insCall := Call.insert (summaryOf p.name) (descriptionOf p.phone p.email)
              (some s) (some e) (attendeesOf p.email)
            match ins with
            | InsOutcome.fail msg => (createFailedResp msg, [fbCall])
            | InsOutcome.ok id => (bookedResp w p.duration id p.dres, [fbCall, insCall])
          else (slotBusyResp w, [fbCall])

/-- The `/tools/check-availability` handler (src/server.js lines 155-291).
`toolSecret` is the trimmed `TOOL_SECRET` configuration, `authToken` the
`X-Auth-Token` header, `callMoment` the already-resolved call context,
`chrono` the external date parser, `oops` an exception escaping to the
outer catch (`none` in the normal flow), and `fb`/`ins` the behavior of the
two outbound calendar calls.  Returns the JSON response and the trace of
calendar calls issued. -/
def handler (toolSecret : String) (authToken : Option String) (oops : Option String)
    (body : Option Body) (callMoment : LocalDT) (chrono : String → Option String)
    (fb : FBOutcome) (ins : InsOutcome) : Response × List Call :=
  if toolSecret ≠ "" && authToken ≠ some toolSecret then (unauthorizedResp, [])
  else
    match oops with
    | some e => (catchResp e, [])
    | none => handlerCore (mkPipe (body.getD Body.empty) callMoment chrono) fb ins

/-! ## Claim theorems -/

/-- C8: duration resolution maps the phrase "45 minutes" to 45, an absent
duration to the default 30, and passes numeric values (zero and negative
included) through unchanged, with no clamping or rejection. -/
theorem c8_duration_resolution :
    resolveDuration (some (JsVal.str "45 minutes")) = 45 ∧
    resolveDuration none = 30 ∧
    ∀ n : Int, resolveDuration (some (JsVal.num n)) = n :=
  ⟨by decide, rfl, fun _ => rfl⟩

/-- C5 counterexample: the bare out-of-range hour "25" is not unresolved but
clamped to "23:00", and the unparseable phrase "abc" is not unresolved but
replaced by the fallback moment's current time of day ("10:00" at a 10:00
call moment); the resolver has no unresolved result at all. -/
theorem c5_counterexample :
    parseLocalTimeToHHmm (some "25") ⟨2025, 10, 1, 10, 0⟩ = "23:00" ∧
    parseLocalTimeToHHmm (some "abc") ⟨2025, 10, 1, 10, 0⟩ =
      fmtTime ⟨2025, 10, 1, 10, 0⟩ :=
  ⟨by decide, by decide⟩

/-- C5 amended: "9am", "9:00am" and "09:00" resolve to 09:00, "12am" to
00:00 and "12pm" to 12:00; but "25" is clamped to 23:00 and "abc" falls back
to the call moment's current time — the resolver always returns a time and
has no unresolved result. -/
theorem c5_amended (m : LocalDT) :
    parseLocalTimeToHHmm (some "9am") m = "09:00" ∧
    parseLocalTimeToHHmm (some "9:00am") m = "09:00" ∧
    parseLocalTimeToHHmm (some "09:00") m = "09:00" ∧
    parseLocalTimeToHHmm (some "12am") m = "00:00" ∧
    parseLocalTimeToHHmm (some "12pm") m = "12:00" ∧
    parseLocalTimeToHHmm (some "25") m = "23:00" ∧
    parseLocalTimeToHHmm (some "abc") m = fmtTime m :=
  ⟨rfl, rfl, rfl, rfl, rfl, rfl, rfl⟩

/-- C6 counterexample: an absent, empty, or whitespace-only time phrase is
not unresolved; it resolves to the call moment's current time of day
(here 14:37), exactly the defaulting the claim rules out. -/
theorem c6_counterexample :
    parseLocalTimeToHHmm none ⟨2025, 10, 1, 14, 37⟩ = "14:37" ∧
    parseLocalTimeToHHmm (some "") ⟨2025, 10, 1, 14, 37⟩ = "14:37" ∧
    fmtTime ⟨2025, 10, 1, 14, 37⟩ = "14:37" :=
  ⟨by decide, by decide, by decide⟩

/-- C6 amended: an absent time phrase (missing, or empty after trimming) is
defaulted to the call moment's current time of day, not treated as
unresolved. -/
theorem c6_amended (m : LocalDT) :
    parseLocalTimeToHHmm none m = fmtTime m ∧
    parseLocalTimeToHHmm (some "") m = fmtTime m ∧
    parseLocalTimeToHHmm (some "   ") m = fmtTime m :=
  ⟨rfl, rfl, rfl⟩

/-- A concrete call moment used by witnesses and counterexamples:
2025-10-01 10:00 business time. -/
def cmOct : LocalDT := LocalDT.mk 2025 10 1 10 0

/-- A chrono oracle that parses nothing (the behavior of `chrono.parseDate`
on inputs like "garbage"). -/
def chronoNone : String → Option String := fun _ => none

/-- C1 counterexample: a request whose body carries no `autoBook` value,
with the availability query reporting the window free, still issues a
create-event call and reports the created event id — refuting the claim
that an absent `autoBook` makes the request availability-only. -/
theorem c1_counterexample :
    (Body.mk (some "2025-10-01") (some "3 pm") none none none none none).autoBook = none ∧
    ((handler "" none none (some (Body.mk (some "2025-10-01") (some "3 pm") none none none none none)) cmOct chronoNone (FBOutcome.ok []) (InsOutcome.ok (some "evt1"))).2.filter Call.isInsert).length = 1 ∧
    (handler "" none none (some (Body.mk (some "2025-10-01") (some "3 pm") none none none none none)) cmOct chronoNone (FBOutcome.ok []) (InsOutcome.ok (some "evt1"))).1.eventId = some "evt1" := by
  refine ⟨rfl, ?_, ?_⟩ <;> decide

/-- C1 amended: the handler ignores any `autoBook` value in the body
(line 177 hardcodes `autoBook = true`): whenever the window is valid and
the availability query reports free, exactly one create-event call is
issued, and the handler's behavior is unchanged by the body's `autoBook`
field. -/
theorem c1_autoBook_ignored (b : Body) (m : LocalDT) (ch : String → Option String)
    (id : Option String) (w : LocalDT) (hw : (mkPipe b m ch).window = some w) :
    ((handler "" none none (some b) m ch (FBOutcome.ok []) (InsOutcome.ok id)).2.filter Call.isInsert).length = 1 ∧
    ∀ ab : Option Bool,
      handler "" none none (some (Body.mk b.date b.time b.duration b.customerName b.customerEmail b.customerPhone ab)) m ch (FBOutcome.ok []) (InsOutcome.ok id)
        = handler "" none none (some b) m ch (FBOutcome.ok []) (InsOutcome.ok id) := by
  constructor
  · simp [handler, handlerCore, hw, Call.isInsert]
  · intro ab
    rfl

/-- C1 witness: the amended theorem evaluated at the 2025-10-01 15:00
booking scenario. -/
theorem c1_autoBook_ignored_witness :
    ((handler "" none none (some (Body.mk (some "2025-10-01") (some "3 pm") none none none none none)) cmOct chronoNone (FBOutcome.ok []) (InsOutcome.ok (some "evt1"))).2.filter Call.isInsert).length = 1 ∧
    ∀ ab : Option Bool,
      handler "" none none (some (Body.mk (some "2025-10-01") (some "3 pm") none none none none ab)) cmOct chronoNone (FBOutcome.ok []) (InsOutcome.ok (some "evt1"))
        = handler "" none none (some (Body.mk (some "2025-10-01") (some "3 pm") none none none none none)) cmOct chronoNone (FBOutcome.ok []) (InsOutcome.ok (some "evt1")) :=
  c1_autoBook_ignored (Body.mk (some "2025-10-01") (some "3 pm") none none none none none)
    cmOct chronoNone (some "evt1") (LocalDT.mk 2025 10 1 15 0) (by decide)

/-- C2 counterexample: on input date "garbage" (time "3 pm") with a free
calendar, the handler books: the response has `isFree = true` and a booked
message that does not identify the date as failing, the date is silently
defaulted to the call context's current day (2025-10-01), and two calendar
calls are made — refuting the claimed ParseFailure termination with no
calendar calls. -/
theorem c2_counterexample :
    (handler "" none none (some (Body.mk (some "garbage") (some "3 pm") none none none none none)) cmOct chronoNone (FBOutcome.ok []) (InsOutcome.ok (some "evt1"))).1.isFree = some true ∧
    (handler "" none none (some (Body.mk (some "garbage") (some "3 pm") none none none none none)) cmOct chronoNone (FBOutcome.ok []) (InsOutcome.ok (some "evt1"))).1.message = "Booked 2025-10-01 at 3:00 pm for 30 minutes." ∧
    fmtDate cmOct = "2025-10-01" ∧
    (handler "" none none (some (Body.mk (some "garbage") (some "3 pm") none none none none none)) cmOct chronoNone (FBOutcome.ok []) (InsOutcome.ok (some "evt1"))).2.length = 2 := by
  refine ⟨?_, ?_, ?_, ?_⟩ <;> decide

/-- C2 amended: a date phrase matching neither the ISO pattern nor the
chrono fallback is silently defaulted to the call context's current day
(`normalized = false`, the trimmed phrase retained), and the handler does
not stop: it proceeds into the calendar orchestration with the defaulted
date; no request-level parse-failure response exists. -/
theorem c2_date_fallback_defaults (raw : String) (m : LocalDT) (ch : String → Option String)
    (tRaw : Option String) (durRaw : Option JsVal) (nm em ph : Option String) (ab : Option Bool)
    (fb : FBOutcome) (ins : InsOutcome)
    (h1 : isIsoShape (trimS raw).data = false) (h2 : ch (trimS raw) = none) :
    normalizeDate (some raw) m ch = DateRes.mk (fmtDate m) false (trimS raw) ∧
    handler "" none none (some (Body.mk (some raw) tRaw durRaw nm em ph ab)) m ch fb ins
      = handlerCore (mkPipe (Body.mk (some raw) tRaw durRaw nm em ph ab) m ch) fb ins := by
  refine ⟨?_, rfl⟩
  unfold normalizeDate
  by_cases he : trimS raw = ""
  · simp [h1, he]
    rfl
  · simp [h1, he, h2]

/-- C2 witness: the amended theorem evaluated at the "garbage" input. -/
theorem c2_date_fallback_defaults_witness :
    normalizeDate (some "garbage") cmOct chronoNone = DateRes.mk (fmtDate cmOct) false (trimS "garbage") ∧
    handler "" none none (some (Body.mk (some "garbage") (some "3 pm") none none none none none)) cmOct chronoNone (FBOutcome.ok []) (InsOutcome.ok (some "evt1"))
      = handlerCore (mkPipe (Body.mk (some "garbage") (some "3 pm") none none none none none) cmOct chronoNone) (FBOutcome.ok []) (InsOutcome.ok (some "evt1")) :=
  c2_date_fallback_defaults "garbage" cmOct chronoNone (some "3 pm") none none none none none
    (FBOutcome.ok []) (InsOutcome.ok (some "evt1")) (by decide) rfl

/-- C3: when the availability query returns a non-empty busy list the
response is the slot-busy response and the trace contains no create-event
call; and any create-event call in the trace presupposes a free
availability result and sits strictly after the freebusy call that heads
the trace. -/
theorem c3_busy_slotBusy_and_ordering (ts : String) (tok oops : Option String)
    (body : Option Body) (m : LocalDT) (ch : String → Option String)
    (fb : FBOutcome) (ins : InsOutcome) :
    (∀ w busy, (ts = "" ∨ tok = some ts) → oops = none →
      (mkPipe (body.getD Body.empty) m ch).window = some w →
      fb = FBOutcome.ok busy → busy ≠ [] →
      (handler ts tok oops body m ch fb ins).1 = slotBusyResp w ∧
      (∀ c ∈ (handler ts tok oops body m ch fb ins).2, c.isInsert = false)) ∧
    (∀ c ∈ (handler ts tok oops body m ch fb ins).2, c.isInsert = true →
      fb = FBOutcome.ok [] ∧
      ∃ a b r, (handler ts tok oops body m ch fb ins).2 = Call.freebusy a b :: r ∧ c ∈ r) := by
  constructor
  · rintro w busy hauth rfl hw rfl hbusy
    rcases hauth with h | h <;> subst h <;>
      cases busy <;> simp_all [handler, handlerCore, Call.isInsert]
  · intro c hc hins
    by_cases hauth : (decide (ts ≠ "") && decide (tok ≠ some ts)) = true
    · unfold handler at hc
      rw [if_pos hauth] at hc
      simp at hc
    · unfold handler at hc ⊢
      rw [if_neg hauth] at hc ⊢
      cases oops with
      | some e => simp at hc
      | none =>
        unfold handlerCore at hc ⊢
        cases hw : (mkPipe (body.getD Body.empty) m ch).window with
        | none =>
          rw [hw] at hc
          simp at hc
          rw [hc] at hins
          simp [Call.isInsert] at hins
        | some w =>
          rw [hw] at hc
          cases fb with
          | fail msg => simp at hc
          | ok busy =>
            cases busy with
            | cons b bs =>
              simp at hc
              rw [hc] at hins
              simp [Call.isInsert] at hins
            | nil =>
              cases ins with
              | fail msg =>
                simp at hc
                rw [hc] at hins
                simp [Call.isInsert] at hins
              | ok id =>
                simp at hc
                refine ⟨rfl, some (dtMinutes w),
                  some (dtMinutes w + (mkPipe (body.getD Body.empty) m ch).duration),
                  [Call.insert (summaryOf (mkPipe (body.getD Body.empty) m ch).name)
                    (descriptionOf (mkPipe (body.getD Body.empty) m ch).phone (mkPipe (body.getD Body.empty) m ch).email)
                    (some (dtMinutes w)) (some (dtMinutes w + (mkPipe (body.getD Body.empty) m ch).duration))
                    (attendeesOf (mkPipe (body.getD Body.empty) m ch).email)], by simp, ?_⟩
                rcases hc with hc | hc
                · rw [hc] at hins
                  simp [Call.isInsert] at hins
                · simp [hc]

/-- C3 witness: with a busy calendar at the 2025-10-01 15:00 window, the
response is the slot-busy response and the trace carries no create call. -/
theorem c3_busy_slotBusy_and_ordering_witness :
    (handler "" none none (some (Body.mk (some "2025-10-01") (some "3 pm") none none none none none)) cmOct chronoNone (FBOutcome.ok [(0, 1)]) (InsOutcome.ok none)).1
      = slotBusyResp (LocalDT.mk 2025 10 1 15 0) ∧
    ∀ c ∈ (handler "" none none (some (Body.mk (some "2025-10-01") (some "3 pm") none none none none none)) cmOct chronoNone (FBOutcome.ok [(0, 1)]) (InsOutcome.ok none)).2, c.isInsert = false :=
  (c3_busy_slotBusy_and_ordering "" none none
      (some (Body.mk (some "2025-10-01") (some "3 pm") none none none none none))
      cmOct chronoNone (FBOutcome.ok [(0, 1)]) (InsOutcome.ok none)).1
    (LocalDT.mk 2025 10 1 15 0) [(0, 1)] (Or.inl rfl) rfl (by decide) rfl (by simp)

/-- C4: when the availability query reports the window free and the
create-event call fails, the response is the create-failed response, with
`isFree = true` and `eventId = null`, and it is never any slot-busy
response. -/
theorem c4_createFailed_not_slotBusy (ts : String) (tok oops : Option String)
    (body : Option Body) (m : LocalDT) (ch : String → Option String)
    (w : LocalDT) (msg : String)
    (hauth : ts = "" ∨ tok = some ts) (hoops : oops = none)
    (hw : (mkPipe (body.getD Body.empty) m ch).window = some w) :
    (handler ts tok oops body m ch (FBOutcome.ok []) (InsOutcome.fail msg)).1 = createFailedResp msg ∧
    (handler ts tok oops body m ch (FBOutcome.ok []) (InsOutcome.fail msg)).1.isFree = some true ∧
    (handler ts tok oops body m ch (FBOutcome.ok []) (InsOutcome.fail msg)).1.eventId = none ∧
    ∀ w2 : LocalDT, (handler ts tok oops body m ch (FBOutcome.ok []) (InsOutcome.fail msg)).1 ≠ slotBusyResp w2 := by
  subst hoops
  rcases hauth with h | h <;> subst h <;>
    simp [handler, handlerCore, hw, createFailedResp, slotBusyResp]

/-- C4 witness: the create-failure scenario at the 2025-10-01 15:00
window. -/
theorem c4_createFailed_not_slotBusy_witness :
    (handler "" none none (some (Body.mk (some "2025-10-01") (some "3 pm") none none none none none)) cmOct chronoNone (FBOutcome.ok []) (InsOutcome.fail "boom")).1 = createFailedResp "boom" ∧
    (handler "" none none (some (Body.mk (some "2025-10-01") (some "3 pm") none none none none none)) cmOct chronoNone (FBOutcome.ok []) (InsOutcome.fail "boom")).1.isFree = some true ∧
    (handler "" none none (some (Body.mk (some "2025-10-01") (some "3 pm") none none none none none)) cmOct chronoNone (FBOutcome.ok []) (InsOutcome.fail "boom")).1.eventId = none ∧
    ∀ w2 : LocalDT, (handler "" none none (some (Body.mk (some "2025-10-01") (some "3 pm") none none none none none)) cmOct chronoNone (FBOutcome.ok []) (InsOutcome.fail "boom")).1 ≠ slotBusyResp w2 :=
  c4_createFailed_not_slotBusy "" none none
    (some (Body.mk (some "2025-10-01") (some "3 pm") none none none none none))
    cmOct chronoNone (LocalDT.mk 2025 10 1 15 0) "boom" (Or.inl rfl) rfl (by decide)

/-- C7 counterexample: with an absent date phrase (inferred date, source not
explicit-iso) and time "9am" at a 2025-10-01 10:00 call moment, the window
start 2025-10-01 09:00 lies strictly before the call instant, yet the
handler queries the calendar for that very window — no one-day advance —
and, the calendar being free, books it with `isFree = true` — no PastWindow
outcome. -/
theorem c7_counterexample :
    (mkPipe (Body.mk none (some "9am") none none none none none) cmOct chronoNone).dres.normalized = false ∧
    (mkPipe (Body.mk none (some "9am") none none none none none) cmOct chronoNone).window = some (LocalDT.mk 2025 10 1 9 0) ∧
    dtMinutes (LocalDT.mk 2025 10 1 9 0) < dtMinutes cmOct ∧
    (handler "" none none (some (Body.mk none (some "9am") none none none none none)) cmOct chronoNone (FBOutcome.ok []) (InsOutcome.ok (some "e7"))).2.head? =
      some (Call.freebusy (some (dtMinutes (LocalDT.mk 2025 10 1 9 0))) (some (dtMinutes (LocalDT.mk 2025 10 1 9 0) + 30))) ∧
    (handler "" none none (some (Body.mk none (some "9am") none none none none none)) cmOct chronoNone (FBOutcome.ok []) (InsOutcome.ok (some "e7"))).1.isFree = some true := by
  refine ⟨?_, ?_, ?_, ?_, ?_⟩ <;> decide

/-- C7 amended: the window builder applies no past-window correction for
any date source: for every request with a valid resolved window, even one
strictly before the call instant, the calendar is queried for exactly the
naive date+time window (no day advance), and no PastWindow outcome
exists — the request proceeds to the availability check. -/
theorem c7_no_past_correction (ts : String) (tok oops : Option String)
    (body : Option Body) (m : LocalDT) (ch : String → Option String)
    (busy : List (Int × Int)) (ins : InsOutcome) (w : LocalDT)
    (hauth : ts = "" ∨ tok = some ts) (hoops : oops = none)
    (hw : (mkPipe (body.getD Body.empty) m ch).window = some w)
    (_hpast : dtMinutes w < dtMinutes m) :
    (handler ts tok oops body m ch (FBOutcome.ok busy) ins).2.head? =
      some (Call.freebusy (some (dtMinutes w))
        (some (dtMinutes w + (mkPipe (body.getD Body.empty) m ch).duration))) := by
  subst hoops
  rcases hauth with h | h <;> subst h <;>
    cases busy <;> cases ins <;> simp [handler, handlerCore, hw]

/-- C7 witness: the amended theorem at the inferred-date 09:00-before-10:00
scenario. -/
theorem c7_no_past_correction_witness :
    (handler "" none none (some (Body.mk none (some "9am") none none none none none)) cmOct chronoNone (FBOutcome.ok []) (InsOutcome.ok (some "e7"))).2.head? =
      some (Call.freebusy (some (dtMinutes (LocalDT.mk 2025 10 1 9 0)))
        (some (dtMinutes (LocalDT.mk 2025 10 1 9 0) + 30))) :=
  c7_no_past_correction "" none none (some (Body.mk none (some "9am") none none none none none))
    cmOct chronoNone [] (InsOutcome.ok (some "e7")) (LocalDT.mk 2025 10 1 9 0)
    (Or.inl rfl) rfl (by decide) (by decide)

/-- C9 counterexample: a request with `durationMinutes = 0` yields a window
whose end equals its start — the calendar is queried with
`timeMax = timeMin` — refuting the invariant `end > start`. -/
theorem c9_counterexample :
    (mkPipe (Body.mk (some "2025-10-01") (some "09:00") (some (JsVal.num 0)) none none none none) cmOct chronoNone).duration = 0 ∧
    (handler "" none none (some (Body.mk (some "2025-10-01") (some "09:00") (some (JsVal.num 0)) none none none none)) cmOct chronoNone (FBOutcome.ok []) (InsOutcome.ok (some "e9"))).2.head? =
      some (Call.freebusy (some (dtMinutes (LocalDT.mk 2025 10 1 9 0))) (some (dtMinutes (LocalDT.mk 2025 10 1 9 0)))) := by
  refine ⟨?_, ?_⟩ <;> decide

/-- C9 amended: for every window the pipeline builds, end equals start plus
the resolved duration in minutes, and end is strictly greater than start
exactly when the resolved duration is positive (so the invariant holds for
the default 30 but fails for the zero and negative durations that duration
resolution passes through). -/
theorem c9_end_eq_start_plus_duration (ts : String) (tok oops : Option String)
    (body : Option Body) (m : LocalDT) (ch : String → Option String)
    (busy : List (Int × Int)) (ins : InsOutcome) (w : LocalDT)
    (hauth : ts = "" ∨ tok = some ts) (hoops : oops = none)
    (hw : (mkPipe (body.getD Body.empty) m ch).window = some w) :
    (handler ts tok oops body m ch (FBOutcome.ok busy) ins).2.head? =
      some (Call.freebusy (some (dtMinutes w))
        (some (dtMinutes w + (mkPipe (body.getD Body.empty) m ch).duration))) ∧
    (dtMinutes w < dtMinutes w + (mkPipe (body.getD Body.empty) m ch).duration ↔
      0 < (mkPipe (body.getD Body.empty) m ch).duration) := by
  subst hoops
  constructor
  · rcases hauth with h | h <;> subst h <;>
      cases busy <;> cases ins <;> simp [handler, handlerCore, hw]
  · omega

/-- C9 witness: the amended theorem at the zero-duration scenario. -/
theorem c9_end_eq_start_plus_duration_witness :
    (handler "" none none (some (Body.mk (some "2025-10-01") (some "09:00") (some (JsVal.num 0)) none none none none)) cmOct chronoNone (FBOutcome.ok []) (InsOutcome.ok (some "e9"))).2.head? =
      some (Call.freebusy (some (dtMinutes (LocalDT.mk 2025 10 1 9 0)))
        (some (dtMinutes (LocalDT.mk 2025 10 1 9 0) + 0))) ∧
    (dtMinutes (LocalDT.mk 2025 10 1 9 0) < dtMinutes (LocalDT.mk 2025 10 1 9 0) + 0 ↔
      (0 : Int) < 0) :=
  c9_end_eq_start_plus_duration "" none none
    (some (Body.mk (some "2025-10-01") (some "09:00") (some (JsVal.num 0)) none none none none))
    cmOct chronoNone [] (InsOutcome.ok (some "e9")) (LocalDT.mk 2025 10 1 9 0)
    (Or.inl rfl) rfl (by decide)

/-- C10: in every response body the handler can produce, a non-null
`eventId` forces `isFree = true`; equivalently every response carries
`eventId = null` or `isFree = true`, so busy, failure and error responses
all carry a null `eventId`. -/
theorem c10_eventId_implies_isFree (ts : String) (tok oops : Option String)
    (body : Option Body) (m : LocalDT) (ch : String → Option String)
    (fb : FBOutcome) (ins : InsOutcome) :
    (handler ts tok oops body m ch fb ins).1.eventId = none ∨
    (handler ts tok oops body m ch fb ins).1.isFree = some true := by
  unfold handler
  split
  · left
    rfl
  · cases oops with
    | some e =>
      left
      rfl
    | none =>
      unfold handlerCore
      cases hw : (mkPipe ((body.getD Body.empty)) m ch).window with
      | none =>
        left
        rfl
      | some w =>
        cases fb with
        | fail msg =>
          left
          rfl
        | ok busy =>
          cases ins with
          | fail msg => cases busy <;> simp [hw, createFailedResp, slotBusyResp]
          | ok id => cases busy <;> simp [hw, bookedResp, slotBusyResp]

end Desklines
